import Mathlib

/-!
Shallow embedding of the order-service checkout endpoint (`POST /orders`) and
the order-status endpoint (`PUT /orders/:id/status`) of the demo e-commerce
system, together with proofs of the spec's claims about them.

The source is an Express handler backed by PostgreSQL.  Monetary values
(`DECIMAL(10,2)` columns, JS numbers) are modelled as exact rationals.
The handler obtains one client from the pool, issues `BEGIN`, validates the
request, resolves each line item against the remote catalog, inserts the
order row, the order-item rows, deletes the owner's cart rows, then — still
inside the open transaction — calls the remote payment service and, on a
`success` payment status, updates the order row to `processing`; only then
does it issue `COMMIT`.  Any thrown error is caught, `ROLLBACK` is issued and
a 500 response returned.  A failure of the status `UPDATE` is caught and
absorbed; per PostgreSQL semantics a failed statement leaves the transaction
in an aborted state, in which the final `COMMIT` acts as a rollback and
reports no error, so in that case nothing at all is persisted although the
handler still answers 201.
-/

namespace OrderService

/-- Order lifecycle statuses, exactly the `validStatuses` list of the source. -/
inductive OrderStatus where
  | pending
  | processing
  | shipped
  | delivered
  | cancelled
deriving DecidableEq

/-- One element of the request body's `items` array: `{product_id, quantity}`. -/
structure Item where
  product_id : Nat
  quantity : Nat
deriving DecidableEq

/-- An element of the in-memory `orderItems` array built during checkout:
the request item together with the catalog price observed for it. -/
structure ResolvedItem where
  product_id : Nat
  quantity : Nat
  price : ℚ
deriving DecidableEq

/-- A row of the `orders` table (timestamps omitted). -/
structure Order where
  id : Nat
  user_id : Nat
  total_amount : ℚ
  shipping_address : String
  status : OrderStatus
deriving DecidableEq

/-- A row of the `order_items` table (its own serial id omitted). -/
structure OrderLine where
  order_id : Nat
  product_id : Nat
  quantity : Nat
  price : ℚ
deriving DecidableEq

/-- A row of the `cart` table. -/
structure CartLine where
  user_id : Nat
  product_id : Nat
  quantity : Nat
deriving DecidableEq

/-- The committed contents of the relational store, restricted to the three
tables the checkout path touches. -/
structure Store where
  orders : List Order
  order_items : List OrderLine
  cart : List CartLine
deriving DecidableEq

/-- Outcome of the `axios.post` to the payment service: the response's
`status` field is `"success"`, or it is something else (the payment service
answers `"failed"` for a declined charge), or the call itself throws. -/
inductive PaymentResult where
  | success
  | failed
  | transportError
deriving DecidableEq

/-- The environment of one checkout run: the catalog lookup (the
`getProductDetails` helper throws on 404 and on transport errors alike, so a
single `Option` covers both), the payment outcome, and whether the
`UPDATE orders SET status` statement succeeds (the one store statement whose
failure the source catches and absorbs). -/
structure CheckoutEnv where
  catalog : Nat → Option ℚ
  payment : PaymentResult
  statusUpdateOk : Bool

/-- Observable events of a checkout run, in program order: transaction
control statements, remote calls, and the write statements issued on the
transaction's client. -/
inductive Event where
  | beginTx
  | catalogLookup (productId : Nat)
  | insertOrder
  | insertOrderItem (productId : Nat)
  | deleteCart (userId : Nat)
  | paymentCall
  | updateStatus
  | commitTx
  | rollbackTx
deriving DecidableEq

/-- The hard-coded demo identity: `const userId = 1` in every handler. -/
def ownerId : Nat := 1

/-- The `for (const item of items)` pricing loop: resolve each item against
the catalog in order, failing on the first item whose lookup fails. -/
def resolveItems (catalog : Nat → Option ℚ) : List Item → Option (List ResolvedItem)
  | [] => some []
  | it :: rest =>
    match catalog it.product_id with
    | none => none
    | some p => (resolveItems catalog rest).map (fun tl => ⟨it.product_id, it.quantity, p⟩ :: tl)

/-- `totalAmount`: the sum of `product.price * item.quantity` over the
resolved items. -/
def totalOf (ris : List ResolvedItem) : ℚ :=
  (ris.map (fun r => r.price * (r.quantity : ℚ))).sum

/-- The catalog-lookup events the pricing loop emits: one per item up to and
including the first failing lookup. -/
def lookupTrace (catalog : Nat → Option ℚ) : List Item → List Event
  | [] => []
  | it :: rest =>
    Event.catalogLookup it.product_id ::
      (match catalog it.product_id with
       | none => []
       | some _ => lookupTrace catalog rest)

/-- The `order_items` rows inserted for a given order id. -/
def orderLinesOf (oid : Nat) (ris : List ResolvedItem) : List OrderLine :=
  ris.map (fun r => ⟨oid, r.product_id, r.quantity, r.price⟩)

/-- Effect of `DELETE FROM cart WHERE user_id = $1` with the demo owner id. -/
def clearCart (cart : List CartLine) : List CartLine :=
  cart.filter (fun c => c.user_id != ownerId)

/-- Result of one `POST /orders` request: HTTP status, response body (the
order object on 201, an error otherwise), the committed store after the run,
and the trace of observable events. -/
structure RunResult where
  status : Nat
  body : Option Order
  store : Store
  trace : List Event
deriving DecidableEq

/-- The order row as the `INSERT INTO orders … RETURNING *` statement
creates and returns it: demo owner, total from the pricing loop, defaulted
shipping address, status `pending`. -/
def pendingOrder (oid : Nat) (ris : List ResolvedItem) (shipping : Option String) : Order :=
  ⟨oid, ownerId, totalOf ris, shipping.getD "Default Address", OrderStatus.pending⟩

/-- The store as buffered by the open transaction after the order insert,
the order-item inserts and the cart deletion. -/
def txBufferedStore (st : Store) (oid : Nat) (ris : List ResolvedItem)
    (shipping : Option String) : Store :=
  ⟨st.orders ++ [pendingOrder oid ris shipping],
   st.order_items ++ orderLinesOf oid ris,
   clearCart st.cart⟩

/-- Events emitted between `BEGIN` and the payment call on a run that
reaches the payment step: the catalog lookups, the order insert, one
order-item insert per resolved item, and the cart deletion. -/
def preTrace (catalog : Nat → Option ℚ) (items : List Item) (ris : List ResolvedItem) :
    List Event :=
  Event.beginTx :: (lookupTrace catalog items ++
    Event.insertOrder :: ((ris.map fun r => Event.insertOrderItem r.product_id) ++
      [Event.deleteCart ownerId]))

/-- The tail of the `POST /orders` handler once the pricing loop has
succeeded with resolved items `ris`: issue the three kinds of writes on the
transaction's client, call the payment service with the transaction still
open, and on a `success` payment status update the order row to
`processing`.  A non-success status or a payment transport error skips the
update; a failed update is absorbed but leaves the transaction aborted, so
the final `COMMIT` then persists nothing.  The 201 body is always the row
the order insert returned, still carrying status `pending`. -/
def finishCheckout (st : Store) (items : List Item) (shipping : Option String)
    (env : CheckoutEnv) (newOrderId : Nat) (ris : List ResolvedItem) : RunResult :=
  let order := pendingOrder newOrderId ris shipping
  let txStore := txBufferedStore st newOrderId ris shipping
  let pre := preTrace env.catalog items ris
  match env.payment with
  | PaymentResult.success =>
    if env.statusUpdateOk then
      ⟨201, some order,
       ⟨txStore.orders.map (fun o =>
          if o.id = newOrderId then { o with status := OrderStatus.processing } else o),
        txStore.order_items, txStore.cart⟩,
       pre ++ [Event.paymentCall, Event.updateStatus, Event.commitTx]⟩
    else
      ⟨201, some order, st,
       pre ++ [Event.paymentCall, Event.updateStatus, Event.commitTx]⟩
  | _ =>
    ⟨201, some order, txStore, pre ++ [Event.paymentCall, Event.commitTx]⟩

/-- The `POST /orders` handler.  `items?` is the request body's `items`
field (`none` when absent), `shipping` its `shipping_address`, `newOrderId`
the serial id the `INSERT INTO orders … RETURNING *` yields.  The entire
body of the handler runs between one `BEGIN` and one `COMMIT`: empty or
missing `items` throws `No items provided`, which the outer `catch` turns
into `ROLLBACK` and a 500 response; a failed catalog lookup throws likewise
before any write statement; otherwise the run continues in
`finishCheckout`. -/
def createOrder (st : Store) (items? : Option (List Item)) (shipping : Option String)
    (env : CheckoutEnv) (newOrderId : Nat) : RunResult :=
  let items := items?.getD []
  if items.isEmpty then
    ⟨500, none, st, [Event.beginTx, Event.rollbackTx]⟩
  else
    match resolveItems env.catalog items with
    | none =>
      ⟨500, none, st, Event.beginTx :: (lookupTrace env.catalog items ++ [Event.rollbackTx])⟩
    | some ris => finishCheckout st items shipping env newOrderId ris

/-- Parsing of the request body's `status` string against the handler's
`validStatuses` list. -/
def statusOfString (s : String) : Option OrderStatus :=
  if s = "pending" then some OrderStatus.pending
  else if s = "processing" then some OrderStatus.processing
  else if s = "shipped" then some OrderStatus.shipped
  else if s = "delivered" then some OrderStatus.delivered
  else if s = "cancelled" then some OrderStatus.cancelled
  else none

/-- Result of one `PUT /orders/:id/status` request. -/
structure UpdateResult where
  status : Nat
  body : Option Order
  store : Store
deriving DecidableEq

/-- The `PUT /orders/:id/status` handler: reject a string outside
`validStatuses` with 400, answer 404 when no order row has the given id,
otherwise set the row's status to the requested one — unconditionally, with
no guard on the current status — and return the updated row. -/
def updateOrderStatus (st : Store) (oid : Nat) (statusStr : String) : UpdateResult :=
  match statusOfString statusStr with
  | none => ⟨400, none, st⟩
  | some s =>
    match st.orders.find? (fun o => o.id == oid) with
    | none => ⟨404, none, st⟩
    | some o =>
      ⟨200, some { o with status := s },
       ⟨st.orders.map (fun x => if x.id = oid then { x with status := s } else x),
        st.order_items, st.cart⟩⟩

/-- A one-product catalog answering price 29.99 for product 7, the
scenario of spec property P6. -/
def demoCatalog : Nat → Option ℚ := fun pid => if pid = 7 then some (2999 / 100) else none

/-- The P6 request: one item, product 7, quantity 2. -/
def demoItems : List Item := [⟨7, 2⟩]

/-- An initial store whose demo owner has one cart row for product 7. -/
def demoStore : Store := ⟨[], [], [⟨1, 7, 2⟩]⟩

/-- Environment of a fully successful run: payment succeeds and the status
update statement succeeds. -/
def demoEnvOk : CheckoutEnv := ⟨demoCatalog, PaymentResult.success, true⟩

/-- Environment where payment succeeds but the status update statement
fails. -/
def demoEnvUpdateFail : CheckoutEnv := ⟨demoCatalog, PaymentResult.success, false⟩

/-- Environment where the payment service answers a non-success status. -/
def demoEnvDeclined : CheckoutEnv := ⟨demoCatalog, PaymentResult.failed, true⟩

/-- The P6 checkout run with successful payment and status update. -/
def runSuccess : RunResult := createOrder demoStore (some demoItems) none demoEnvOk 1

/-- The P6 checkout run where payment succeeds but the status update
statement fails. -/
def runUpdateFail : RunResult := createOrder demoStore (some demoItems) none demoEnvUpdateFail 1

/-- The P6 checkout run where the payment service declines. -/
def runDeclined : RunResult := createOrder demoStore (some demoItems) none demoEnvDeclined 1

/-- The resolved items of the P6 pricing loop. -/
def demoResolved : List ResolvedItem := [⟨7, 2, 2999 / 100⟩]

/-- An item whose product the demo catalog does not know. -/
def demoBadItem : Item := ⟨9, 1⟩

/-- A status-endpoint run that sends an order already in `processing` back
to `pending`. -/
def revertRun : UpdateResult :=
  updateOrderStatus ⟨[⟨5, 1, 10, "A", OrderStatus.processing⟩], [], []⟩ 5 "pending"

/-- A status-endpoint run that advances an order to `processing` although
no payment was ever observed for it. -/
def advanceRun : UpdateResult :=
  updateOrderStatus ⟨[⟨6, 1, 10, "A", OrderStatus.pending⟩], [], []⟩ 6 "processing"

/-- When every lookup in the pricing loop succeeds, the loop emits exactly
one catalog-lookup event per request item, in request order. -/
theorem lookupTrace_eq_map (catalog : Nat → Option ℚ) (items : List Item) (ris : List ResolvedItem)
    (h : resolveItems catalog items = some ris) :
    lookupTrace catalog items = items.map (fun it => Event.catalogLookup it.product_id) := by
  induction items generalizing ris with
  | nil => rfl
  | cons it rest ih =>
    simp only [resolveItems] at h
    simp only [lookupTrace, List.map_cons]
    cases hc : catalog it.product_id with
    | none => rw [hc] at h; exact absurd h (by simp)
    | some p =>
      rw [hc] at h
      cases hr : resolveItems catalog rest with
      | none => rw [hr] at h; simp at h
      | some tl => simp [ih tl hr]

/-- A successful pricing loop pairs each request item, in order, with a
resolved item carrying the same product id and quantity and the price the
catalog answered for that product. -/
theorem resolveItems_spec (catalog : Nat → Option ℚ) (items : List Item) (ris : List ResolvedItem)
    (h : resolveItems catalog items = some ris) :
    List.Forall₂ (fun (r : ResolvedItem) (it : Item) =>
      r.product_id = it.product_id ∧ r.quantity = it.quantity ∧
        catalog it.product_id = some r.price) ris items := by
  induction items generalizing ris with
  | nil =>
    simp only [resolveItems, Option.some.injEq] at h
    subst h
    exact List.Forall₂.nil
  | cons it rest ih =>
    simp only [resolveItems] at h
    cases hc : catalog it.product_id with
    | none => rw [hc] at h; exact absurd h (by simp)
    | some p =>
      rw [hc] at h
      cases hr : resolveItems catalog rest with
      | none => rw [hr] at h; simp at h
      | some tl =>
        rw [hr] at h
        simp only [Option.map_some', Option.some.injEq] at h
        subst h
        exact List.Forall₂.cons ⟨rfl, rfl, hc⟩ (ih tl hr)

/-- A successful pricing loop produces one resolved item per request item. -/
theorem resolveItems_length (catalog : Nat → Option ℚ) (items : List Item) (ris : List ResolvedItem)
    (h : resolveItems catalog items = some ris) : ris.length = items.length :=
  (resolveItems_spec catalog items ris h).length_eq

/-- If any request item's catalog lookup fails, the whole pricing loop
fails. -/
theorem resolveItems_eq_none (catalog : Nat → Option ℚ) (items : List Item) (it : Item)
    (hmem : it ∈ items) (hc : catalog it.product_id = none) :
    resolveItems catalog items = none := by
  induction items with
  | nil => cases hmem
  | cons a rest ih =>
    simp only [resolveItems]
    cases hmem with
    | head => rw [hc]
    | tail _ hm =>
      cases ha : catalog a.product_id with
      | none => rfl
      | some p => rw [ih hm]; rfl

/-- Taking the prefix of a trace up to the first payment call skips exactly
the events before that call. -/
theorem takeWhile_until_payment (l₁ l₂ : List Event)
    (h : ∀ e ∈ l₁, e ≠ Event.paymentCall) :
    (l₁ ++ Event.paymentCall :: l₂).takeWhile (fun e => e != Event.paymentCall) = l₁ := by
  induction l₁ with
  | nil => simp [List.takeWhile_cons]
  | cons a l ih =>
    have ha : a ≠ Event.paymentCall := h a (List.mem_cons_self a l)
    simp [List.takeWhile_cons, ha, ih (fun e he => h e (List.mem_cons_of_mem a he))]

/-- A request with a non-empty items list whose pricing loop succeeds runs
the post-pricing tail of the handler. -/
theorem createOrder_eq_finish (st : Store) (items : List Item) (shipping : Option String)
    (env : CheckoutEnv) (oid : Nat) (ris : List ResolvedItem)
    (hne : items ≠ []) (hres : resolveItems env.catalog items = some ris) :
    createOrder st (some items) shipping env oid = finishCheckout st items shipping env oid ris := by
  cases items with
  | nil => exact absurd rfl hne
  | cons a l => simp [createOrder, hres]

/-- Fully successful run: payment succeeds and the status update succeeds,
so the commit applies the buffered writes with the order row advanced to
`processing`. -/
theorem finishCheckout_success_ok (st : Store) (items : List Item) (shipping : Option String)
    (catalog : Nat → Option ℚ) (oid : Nat) (ris : List ResolvedItem) :
    finishCheckout st items shipping ⟨catalog, PaymentResult.success, true⟩ oid ris =
      ⟨201, some (pendingOrder oid ris shipping),
       ⟨(st.orders ++ [pendingOrder oid ris shipping]).map (fun o =>
          if o.id = oid then { o with status := OrderStatus.processing } else o),
        st.order_items ++ orderLinesOf oid ris, clearCart st.cart⟩,
       preTrace catalog items ris ++ [Event.paymentCall, Event.updateStatus, Event.commitTx]⟩ :=
  rfl

/-- Payment succeeds but the status update statement fails: the transaction
is aborted, the commit persists nothing, yet the response is still 201 with
the inserted order row. -/
theorem finishCheckout_success_updateFail (st : Store) (items : List Item)
    (shipping : Option String) (catalog : Nat → Option ℚ) (oid : Nat) (ris : List ResolvedItem) :
    finishCheckout st items shipping ⟨catalog, PaymentResult.success, false⟩ oid ris =
      ⟨201, some (pendingOrder oid ris shipping), st,
       preTrace catalog items ris ++ [Event.paymentCall, Event.updateStatus, Event.commitTx]⟩ :=
  rfl

/-- Non-success payment outcome (declined status or transport error): no
status update is attempted and the commit applies the buffered writes with
the order row still `pending`. -/
theorem finishCheckout_noSuccess (st : Store) (items : List Item) (shipping : Option String)
    (catalog : Nat → Option ℚ) (payment : PaymentResult) (ok : Bool) (oid : Nat)
    (ris : List ResolvedItem) (hp : payment ≠ PaymentResult.success) :
    finishCheckout st items shipping ⟨catalog, payment, ok⟩ oid ris =
      ⟨201, some (pendingOrder oid ris shipping), txBufferedStore st oid ris shipping,
       preTrace catalog items ris ++ [Event.paymentCall, Event.commitTx]⟩ := by
  cases payment with
  | success => exact absurd rfl hp
  | failed => rfl
  | transportError => rfl

/-- A fresh order id leaves every pre-existing order row untouched by the
status-advance update. -/
theorem map_advance_of_fresh (orders : List Order) (oid : Nat)
    (hfresh : ∀ o ∈ orders, o.id ≠ oid) :
    orders.map (fun o =>
      if o.id = oid then { o with status := OrderStatus.processing } else o) = orders := by
  induction orders with
  | nil => rfl
  | cons a l ih =>
    have ha : a.id ≠ oid := hfresh a (List.mem_cons_self a l)
    simp only [List.map_cons, if_neg ha]
    rw [ih (fun o ho => hfresh o (List.mem_cons_of_mem a ho))]

/-- The sum of `quantity * price` over the inserted order lines is exactly
the `totalAmount` the pricing loop computed. -/
theorem lines_sum_eq_totalOf (oid : Nat) (ris : List ResolvedItem) :
    ((orderLinesOf oid ris).map (fun l => (l.quantity : ℚ) * l.price)).sum = totalOf ris := by
  unfold orderLinesOf totalOf
  rw [List.map_map]
  exact congrArg List.sum (List.map_congr_left (fun r _ => mul_comm (r.quantity : ℚ) r.price))

/-- No event before the payment call is a payment call. -/
theorem preTrace_no_payment (catalog : Nat → Option ℚ) (items : List Item)
    (ris : List ResolvedItem) (hres : resolveItems catalog items = some ris) :
    ∀ e ∈ preTrace catalog items ris, e ≠ Event.paymentCall := by
  intro e he hEq
  subst hEq
  rw [preTrace, lookupTrace_eq_map catalog items ris hres] at he
  simp at he

/-- No event before the payment call is a commit. -/
theorem preTrace_no_commit (catalog : Nat → Option ℚ) (items : List Item)
    (ris : List ResolvedItem) (hres : resolveItems catalog items = some ris) :
    Event.commitTx ∉ preTrace catalog items ris := by
  intro he
  rw [preTrace, lookupTrace_eq_map catalog items ris hres] at he
  simp at he

/-- Nor is any of them a transaction begin. -/
theorem preTrace_tail_no_begin (catalog : Nat → Option ℚ) (items : List Item)
    (ris : List ResolvedItem) (hres : resolveItems catalog items = some ris) :
    Event.beginTx ∉ (lookupTrace catalog items ++
      Event.insertOrder :: ((ris.map fun r => Event.insertOrderItem r.product_id) ++
        [Event.deleteCart ownerId])) := by
  intro he
  rw [lookupTrace_eq_map catalog items ris hres] at he
  simp at he

/-- C3 (counterexample): a `POST /orders` with an empty items list is
answered with HTTP 500, not 400 — the `No items provided` error falls into
the handler's generic catch — although, as claimed, no store write is
committed. -/
theorem emptyItems_answered_500_not_400 :
    (createOrder demoStore (some []) none demoEnvOk 1).status = 500 ∧
    (createOrder demoStore (some []) none demoEnvOk 1).status ≠ 400 ∧
    (createOrder demoStore (some []) none demoEnvOk 1).store = demoStore :=
  ⟨rfl, by decide, rfl⟩

/-- C3 (amended): a `POST /orders` whose items list is empty or missing is
rejected with HTTP 500, an error body, and no store writes: the transaction
is rolled back and the store is exactly as before. -/
theorem emptyItems_rejected_no_writes (st : Store) (shipping : Option String) (env : CheckoutEnv)
    (oid : Nat) (items? : Option (List Item)) (h : items? = none ∨ items? = some []) :
    (createOrder st items? shipping env oid).status = 500 ∧
    (createOrder st items? shipping env oid).body = none ∧
    (createOrder st items? shipping env oid).store = st ∧
    (createOrder st items? shipping env oid).trace = [Event.beginTx, Event.rollbackTx] := by
  rcases h with h | h <;> subst h <;> exact ⟨rfl, rfl, rfl, rfl⟩

/-- Witness for the amended C3 at the P7 scenario (empty cart). -/
theorem emptyItems_rejected_no_writes_witness :
    (some ([] : List Item) = none ∨ some ([] : List Item) = some ([] : List Item)) ∧
    ((createOrder demoStore (some []) none demoEnvOk 1).status = 500 ∧
     (createOrder demoStore (some []) none demoEnvOk 1).body = none ∧
     (createOrder demoStore (some []) none demoEnvOk 1).store = demoStore ∧
     (createOrder demoStore (some []) none demoEnvOk 1).trace =
       [Event.beginTx, Event.rollbackTx]) :=
  ⟨Or.inr rfl, emptyItems_rejected_no_writes demoStore none demoEnvOk 1 (some []) (Or.inr rfl)⟩

/-- C4: if the catalog lookup of any requested item fails, the whole
checkout aborts with a 500 response and the committed store is unchanged —
no order row, no order-item row and no cart deletion survive. -/
theorem lookupFailure_aborts_checkout (st : Store) (items : List Item) (shipping : Option String)
    (env : CheckoutEnv) (oid : Nat) (it : Item) (hmem : it ∈ items)
    (hc : env.catalog it.product_id = none) :
    (createOrder st (some items) shipping env oid).status = 500 ∧
    (createOrder st (some items) shipping env oid).body = none ∧
    (createOrder st (some items) shipping env oid).store = st := by
  have hres := resolveItems_eq_none env.catalog items it hmem hc
  cases items with
  | nil => cases hmem
  | cons a l => refine ⟨?_, ?_, ?_⟩ <;> simp [createOrder, hres]

/-- Witness for C4 at the P8 scenario: the only requested product is
unknown to the catalog. -/
theorem lookupFailure_aborts_checkout_witness :
    (demoBadItem ∈ [demoBadItem] ∧ demoEnvOk.catalog demoBadItem.product_id = none) ∧
    ((createOrder demoStore (some [demoBadItem]) none demoEnvOk 1).status = 500 ∧
     (createOrder demoStore (some [demoBadItem]) none demoEnvOk 1).body = none ∧
     (createOrder demoStore (some [demoBadItem]) none demoEnvOk 1).store = demoStore) :=
  ⟨⟨List.mem_singleton_self _, by decide⟩,
   lookupFailure_aborts_checkout demoStore [demoBadItem] none demoEnvOk 1 demoBadItem
     (List.mem_singleton_self _) (by decide)⟩

/-- C5: when the payment service answers a non-success status or the
payment call fails in transport, the checkout still answers 201 with the
inserted order, the order row is committed with status `pending`, and
nothing is rolled back. -/
theorem paymentFailure_still_created_pending (st : Store) (items : List Item)
    (shipping : Option String) (catalog : Nat → Option ℚ) (payment : PaymentResult) (ok : Bool)
    (oid : Nat) (ris : List ResolvedItem)
    (hne : items ≠ []) (hres : resolveItems catalog items = some ris)
    (hpay : payment ≠ PaymentResult.success) :
    (createOrder st (some items) shipping ⟨catalog, payment, ok⟩ oid).status = 201 ∧
    (createOrder st (some items) shipping ⟨catalog, payment, ok⟩ oid).body =
      some (pendingOrder oid ris shipping) ∧
    (pendingOrder oid ris shipping).status = OrderStatus.pending ∧
    (createOrder st (some items) shipping ⟨catalog, payment, ok⟩ oid).store.orders =
      st.orders ++ [pendingOrder oid ris shipping] := by
  rw [createOrder_eq_finish st items shipping ⟨catalog, payment, ok⟩ oid ris hne hres,
    finishCheckout_noSuccess st items shipping catalog payment ok oid ris hpay]
  exact ⟨rfl, rfl, rfl, rfl⟩

/-- Witness for C5: the P6 cart with a declined payment. -/
theorem paymentFailure_still_created_pending_witness :
    (demoItems ≠ [] ∧ resolveItems demoCatalog demoItems = some demoResolved ∧
      PaymentResult.failed ≠ PaymentResult.success) ∧
    ((createOrder demoStore (some demoItems) none ⟨demoCatalog, PaymentResult.failed, true⟩ 1).status = 201 ∧
     (createOrder demoStore (some demoItems) none ⟨demoCatalog, PaymentResult.failed, true⟩ 1).body =
       some (pendingOrder 1 demoResolved none) ∧
     (pendingOrder 1 demoResolved none).status = OrderStatus.pending ∧
     (createOrder demoStore (some demoItems) none ⟨demoCatalog, PaymentResult.failed, true⟩ 1).store.orders =
       demoStore.orders ++ [pendingOrder 1 demoResolved none]) :=
  ⟨⟨by decide, rfl, by decide⟩,
   paymentFailure_still_created_pending demoStore demoItems none demoCatalog
     PaymentResult.failed true 1 demoResolved (by decide) rfl (by decide)⟩

/-- C2: a checkout of a non-empty items list whose products all resolve —
with the store itself healthy — commits exactly one new order row and one
order-item row per requested item; the order's `total_amount` is exactly
the sum of `quantity * price` over its lines, and each line freezes the
catalog price of its item. -/
theorem checkout_rows_and_total (st : Store) (items : List Item) (shipping : Option String)
    (catalog : Nat → Option ℚ) (payment : PaymentResult) (oid : Nat) (ris : List ResolvedItem)
    (hne : items ≠ []) (hres : resolveItems catalog items = some ris)
    (hfresh : ∀ o ∈ st.orders, o.id ≠ oid) :
    ∃ o,
      (createOrder st (some items) shipping ⟨catalog, payment, true⟩ oid).store.orders =
        st.orders ++ [o] ∧
      o.id = oid ∧
      o.total_amount = ((orderLinesOf oid ris).map (fun l => (l.quantity : ℚ) * l.price)).sum ∧
      (createOrder st (some items) shipping ⟨catalog, payment, true⟩ oid).store.order_items =
        st.order_items ++ orderLinesOf oid ris ∧
      (orderLinesOf oid ris).length = items.length ∧
      List.Forall₂ (fun (l : OrderLine) (it : Item) =>
        l.order_id = oid ∧ l.product_id = it.product_id ∧ l.quantity = it.quantity ∧
          catalog it.product_id = some l.price) (orderLinesOf oid ris) items := by
  have hlen : (orderLinesOf oid ris).length = items.length := by
    simpa [orderLinesOf] using resolveItems_length catalog items ris hres
  have hfa : List.Forall₂ (fun (l : OrderLine) (it : Item) =>
      l.order_id = oid ∧ l.product_id = it.product_id ∧ l.quantity = it.quantity ∧
        catalog it.product_id = some l.price) (orderLinesOf oid ris) items := by
    rw [orderLinesOf, List.forall₂_map_left_iff]
    exact List.Forall₂.imp (fun r it h => ⟨rfl, h.1, h.2.1, h.2.2⟩)
      (resolveItems_spec catalog items ris hres)
  rw [createOrder_eq_finish st items shipping ⟨catalog, payment, true⟩ oid ris hne hres]
  cases payment with
  | success =>
    rw [finishCheckout_success_ok]
    refine ⟨{ pendingOrder oid ris shipping with status := OrderStatus.processing },
      ?_, rfl, ?_, rfl, hlen, hfa⟩
    · rw [List.map_append, map_advance_of_fresh st.orders oid hfresh, List.map_singleton]
      simp [pendingOrder]
    · rw [lines_sum_eq_totalOf]; rfl
  | failed =>
    rw [finishCheckout_noSuccess st items shipping catalog PaymentResult.failed true oid ris
      (by decide)]
    exact ⟨pendingOrder oid ris shipping, rfl, rfl, by rw [lines_sum_eq_totalOf]; rfl, rfl,
      hlen, hfa⟩
  | transportError =>
    rw [finishCheckout_noSuccess st items shipping catalog PaymentResult.transportError true
      oid ris (by decide)]
    exact ⟨pendingOrder oid ris shipping, rfl, rfl, by rw [lines_sum_eq_totalOf]; rfl, rfl,
      hlen, hfa⟩

/-- Witness for C2 at the P6 scenario: product 7, quantity 2, catalog
price 29.99 yields one line `(7, 2, 29.99)` and a total of exactly 59.98. -/
theorem checkout_rows_and_total_witness :
    (demoItems ≠ [] ∧ resolveItems demoCatalog demoItems = some demoResolved ∧
      (∀ o ∈ demoStore.orders, o.id ≠ 1)) ∧
    (∃ o,
      (createOrder demoStore (some demoItems) none
        ⟨demoCatalog, PaymentResult.success, true⟩ 1).store.orders = demoStore.orders ++ [o] ∧
      o.id = 1 ∧
      o.total_amount = ((orderLinesOf 1 demoResolved).map
        (fun l => (l.quantity : ℚ) * l.price)).sum ∧
      (createOrder demoStore (some demoItems) none
        ⟨demoCatalog, PaymentResult.success, true⟩ 1).store.order_items =
        demoStore.order_items ++ orderLinesOf 1 demoResolved ∧
      (orderLinesOf 1 demoResolved).length = demoItems.length ∧
      List.Forall₂ (fun (l : OrderLine) (it : Item) =>
        l.order_id = 1 ∧ l.product_id = it.product_id ∧ l.quantity = it.quantity ∧
          demoCatalog it.product_id = some l.price) (orderLinesOf 1 demoResolved) demoItems) ∧
    orderLinesOf 1 demoResolved = [⟨1, 7, 2, 2999 / 100⟩] ∧
    totalOf demoResolved = 5998 / 100 :=
  ⟨⟨by decide, rfl, by simp [demoStore]⟩,
   checkout_rows_and_total demoStore demoItems none demoCatalog PaymentResult.success 1
     demoResolved (by decide) rfl (by simp [demoStore]),
   rfl,
   by norm_num [totalOf, demoResolved]⟩

/-- C6 (counterexample): on the P6 cart with a succeeded payment but a
failing status update, the handler still answers 201 — but, contrary to
the claim that the order remains persisted in `pending`, the aborted
transaction persists nothing: the store is exactly the initial one and in
particular holds no order row at all. -/
theorem statusUpdateFailure_rolls_back_everything :
    runUpdateFail.status = 201 ∧
    runUpdateFail.store.orders = [] ∧
    runUpdateFail.store = demoStore :=
  ⟨rfl, rfl, rfl⟩

/-- C6 (amended): when payment succeeds and the status update succeeds, the
committed order row has status `processing`; when payment succeeds but the
status update fails, the failure is absorbed and 201 is still returned, but
the single transaction is aborted, so nothing at all is persisted — no
order, no lines, no cart deletion. -/
theorem paymentSuccess_status_advance (st : Store) (items : List Item) (shipping : Option String)
    (catalog : Nat → Option ℚ) (ok : Bool) (oid : Nat) (ris : List ResolvedItem)
    (hne : items ≠ []) (hres : resolveItems catalog items = some ris)
    (hfresh : ∀ o ∈ st.orders, o.id ≠ oid) :
    (ok = true →
      (createOrder st (some items) shipping ⟨catalog, PaymentResult.success, ok⟩ oid).status =
        201 ∧
      (createOrder st (some items) shipping ⟨catalog, PaymentResult.success, ok⟩ oid).store.orders =
        st.orders ++ [{ pendingOrder oid ris shipping with status := OrderStatus.processing }]) ∧
    (ok = false →
      (createOrder st (some items) shipping ⟨catalog, PaymentResult.success, ok⟩ oid).status =
        201 ∧
      (createOrder st (some items) shipping ⟨catalog, PaymentResult.success, ok⟩ oid).store =
        st) := by
  constructor
  · intro hok
    subst hok
    rw [createOrder_eq_finish st items shipping ⟨catalog, PaymentResult.success, true⟩ oid ris
      hne hres, finishCheckout_success_ok]
    refine ⟨rfl, ?_⟩
    rw [List.map_append, map_advance_of_fresh st.orders oid hfresh, List.map_singleton]
    simp [pendingOrder]
  · intro hok
    subst hok
    rw [createOrder_eq_finish st items shipping ⟨catalog, PaymentResult.success, false⟩ oid ris
      hne hres, finishCheckout_success_updateFail]
    exact ⟨rfl, rfl⟩

/-- Witness for the amended C6 at the P6 scenario with a fully successful
run. -/
theorem paymentSuccess_status_advance_witness :
    (demoItems ≠ [] ∧ resolveItems demoCatalog demoItems = some demoResolved ∧
      (∀ o ∈ demoStore.orders, o.id ≠ 1)) ∧
    ((true = true →
      (createOrder demoStore (some demoItems) none
        ⟨demoCatalog, PaymentResult.success, true⟩ 1).status = 201 ∧
      (createOrder demoStore (some demoItems) none
        ⟨demoCatalog, PaymentResult.success, true⟩ 1).store.orders =
        demoStore.orders ++
          [{ pendingOrder 1 demoResolved none with status := OrderStatus.processing }]) ∧
     (true = false →
      (createOrder demoStore (some demoItems) none
        ⟨demoCatalog, PaymentResult.success, true⟩ 1).status = 201 ∧
      (createOrder demoStore (some demoItems) none
        ⟨demoCatalog, PaymentResult.success, true⟩ 1).store = demoStore)) :=
  ⟨⟨by decide, rfl, by simp [demoStore]⟩,
   paymentSuccess_status_advance demoStore demoItems none demoCatalog true 1 demoResolved
     (by decide) rfl (by simp [demoStore])⟩

/-- C7 (counterexample): on the P6 cart with succeeded payment and
successful status update, the persisted order row has status `processing`,
yet the 201 response body is the order as inserted, still carrying
`pending` — the body does not reflect the status held at the end of the
algorithm. -/
theorem response_not_reflecting_processing :
    runSuccess.status = 201 ∧
    runSuccess.body = some (pendingOrder 1 demoResolved none) ∧
    (pendingOrder 1 demoResolved none).status = OrderStatus.pending ∧
    runSuccess.store.orders =
      [{ pendingOrder 1 demoResolved none with status := OrderStatus.processing }] ∧
    OrderStatus.pending ≠ OrderStatus.processing :=
  ⟨rfl, rfl, rfl, rfl, by decide⟩

/-- C7 (amended): every checkout that reaches the payment step answers 201
with the order row exactly as the insert returned it — its status field is
always `pending`, whatever the payment outcome and whatever status the
persisted row ends up holding. -/
theorem response_body_always_pending (st : Store) (items : List Item) (shipping : Option String)
    (env : CheckoutEnv) (oid : Nat) (ris : List ResolvedItem)
    (hne : items ≠ []) (hres : resolveItems env.catalog items = some ris) :
    (createOrder st (some items) shipping env oid).status = 201 ∧
    (createOrder st (some items) shipping env oid).body =
      some (pendingOrder oid ris shipping) ∧
    (pendingOrder oid ris shipping).status = OrderStatus.pending := by
  rw [createOrder_eq_finish st items shipping env oid ris hne hres]
  obtain ⟨catalog, payment, ok⟩ := env
  cases payment with
  | success =>
    cases ok with
    | false => rw [finishCheckout_success_updateFail]; exact ⟨rfl, rfl, rfl⟩
    | true => rw [finishCheckout_success_ok]; exact ⟨rfl, rfl, rfl⟩
  | failed =>
    rw [finishCheckout_noSuccess st items shipping catalog PaymentResult.failed ok oid ris
      (by decide)]
    exact ⟨rfl, rfl, rfl⟩
  | transportError =>
    rw [finishCheckout_noSuccess st items shipping catalog PaymentResult.transportError ok oid
      ris (by decide)]
    exact ⟨rfl, rfl, rfl⟩

/-- Witness for the amended C7 at the P6 scenario with a fully successful
run. -/
theorem response_body_always_pending_witness :
    (demoItems ≠ [] ∧ resolveItems demoEnvOk.catalog demoItems = some demoResolved) ∧
    ((createOrder demoStore (some demoItems) none demoEnvOk 1).status = 201 ∧
     (createOrder demoStore (some demoItems) none demoEnvOk 1).body =
       some (pendingOrder 1 demoResolved none) ∧
     (pendingOrder 1 demoResolved none).status = OrderStatus.pending) :=
  ⟨⟨by decide, rfl⟩,
   response_body_always_pending demoStore demoItems none demoEnvOk 1 demoResolved
     (by decide) rfl⟩

/-- C1 (counterexample): on the P6 run with succeeded payment, the payment
call and a commit both occur, but no commit precedes the payment call —
the order is not committed in a first transaction strictly before the
Payment Client is invoked. -/
theorem payment_called_before_any_commit :
    Event.paymentCall ∈ runSuccess.trace ∧
    Event.commitTx ∈ runSuccess.trace ∧
    Event.commitTx ∉ runSuccess.trace.takeWhile (fun e => e != Event.paymentCall) := by
  refine ⟨?_, ?_, ?_⟩ <;> decide

/-- C1 (amended): every checkout that reaches the payment step runs as one
single transaction: the trace is `BEGIN`, the catalog lookups, the order
insert, the line inserts, the cart deletion, then the payment call with
the transaction still open, then (only on payment success) the status
update, and only then the one `COMMIT`.  There is exactly one begin and
one commit, and everything before the payment call — which contains no
commit — is the write prefix. -/
theorem single_transaction_spans_payment (st : Store) (items : List Item)
    (shipping : Option String) (env : CheckoutEnv) (oid : Nat) (ris : List ResolvedItem)
    (hne : items ≠ []) (hres : resolveItems env.catalog items = some ris) :
    (createOrder st (some items) shipping env oid).trace =
      preTrace env.catalog items ris ++
        (if env.payment = PaymentResult.success
         then [Event.paymentCall, Event.updateStatus, Event.commitTx]
         else [Event.paymentCall, Event.commitTx]) ∧
    (createOrder st (some items) shipping env oid).trace.takeWhile
        (fun e => e != Event.paymentCall) = preTrace env.catalog items ris ∧
    Event.commitTx ∉ preTrace env.catalog items ris ∧
    (createOrder st (some items) shipping env oid).trace.count Event.beginTx = 1 ∧
    (createOrder st (some items) shipping env oid).trace.count Event.commitTx = 1 := by
  obtain ⟨catalog, payment, ok⟩ := env
  have hnp := preTrace_no_payment catalog items ris hres
  have hnc := preTrace_no_commit catalog items ris hres
  have htr : (createOrder st (some items) shipping ⟨catalog, payment, ok⟩ oid).trace =
      preTrace catalog items ris ++
        (if payment = PaymentResult.success
         then [Event.paymentCall, Event.updateStatus, Event.commitTx]
         else [Event.paymentCall, Event.commitTx]) := by
    rw [createOrder_eq_finish st items shipping ⟨catalog, payment, ok⟩ oid ris hne hres]
    cases payment with
    | success =>
      cases ok with
      | false => rw [finishCheckout_success_updateFail]; simp
      | true => rw [finishCheckout_success_ok]; simp
    | failed =>
      rw [finishCheckout_noSuccess st items shipping catalog PaymentResult.failed ok oid ris
        (by decide)]
      simp
    | transportError =>
      rw [finishCheckout_noSuccess st items shipping catalog PaymentResult.transportError ok
        oid ris (by decide)]
      simp
  have hsuffix : ∃ rest, (if payment = PaymentResult.success
      then [Event.paymentCall, Event.updateStatus, Event.commitTx]
      else [Event.paymentCall, Event.commitTx]) = Event.paymentCall :: rest ∧
      rest.count Event.beginTx = 0 ∧ rest.count Event.commitTx = 1 := by
    cases payment with
    | success => exact ⟨[Event.updateStatus, Event.commitTx], by simp, by decide, by decide⟩
    | failed => exact ⟨[Event.commitTx], by simp, by decide, by decide⟩
    | transportError => exact ⟨[Event.commitTx], by simp, by decide, by decide⟩
  obtain ⟨rest, hrest, hrb, hrc⟩ := hsuffix
  have hpre_begin : (preTrace catalog items ris).count Event.beginTx = 1 := by
    simp only [preTrace, List.count_cons_self]
    rw [List.count_eq_zero.mpr (preTrace_tail_no_begin catalog items ris hres)]
  refine ⟨htr, ?_, hnc, ?_, ?_⟩
  · rw [htr, hrest]
    exact takeWhile_until_payment _ rest hnp
  · rw [htr, hrest, List.count_append, hpre_begin]
    simp [List.count_cons, hrb]
  · rw [htr, hrest, List.count_append, List.count_eq_zero.mpr hnc]
    simp [List.count_cons, hrc]

/-- Witness for the amended C1 at the P6 scenario with succeeded payment. -/
theorem single_transaction_spans_payment_witness :
    (demoItems ≠ [] ∧ resolveItems demoEnvOk.catalog demoItems = some demoResolved) ∧
    ((createOrder demoStore (some demoItems) none demoEnvOk 1).trace =
      preTrace demoEnvOk.catalog demoItems demoResolved ++
        (if demoEnvOk.payment = PaymentResult.success
         then [Event.paymentCall, Event.updateStatus, Event.commitTx]
         else [Event.paymentCall, Event.commitTx]) ∧
     (createOrder demoStore (some demoItems) none demoEnvOk 1).trace.takeWhile
        (fun e => e != Event.paymentCall) = preTrace demoEnvOk.catalog demoItems demoResolved ∧
     Event.commitTx ∉ preTrace demoEnvOk.catalog demoItems demoResolved ∧
     (createOrder demoStore (some demoItems) none demoEnvOk 1).trace.count Event.beginTx = 1 ∧
     (createOrder demoStore (some demoItems) none demoEnvOk 1).trace.count Event.commitTx = 1) :=
  ⟨⟨by decide, rfl⟩,
   single_transaction_spans_payment demoStore demoItems none demoEnvOk 1 demoResolved
     (by decide) rfl⟩

/-- C8: the owner's cart rows are removed exactly when the order was
persisted.  Whenever the committed store holds the new order row, the cart
has been cleared of every row of the demo owner (and only those); whenever
it does not, the whole store — the cart included — is exactly as before
the request. -/
theorem cart_cleared_iff_order_persisted (st : Store) (items? : Option (List Item))
    (shipping : Option String) (env : CheckoutEnv) (oid : Nat)
    (hfresh : ∀ o ∈ st.orders, o.id ≠ oid) :
    ((∃ o ∈ (createOrder st items? shipping env oid).store.orders, o.id = oid) →
      (createOrder st items? shipping env oid).store.cart = clearCart st.cart) ∧
    ((∀ o ∈ (createOrder st items? shipping env oid).store.orders, o.id ≠ oid) →
      (createOrder st items? shipping env oid).store = st) := by
  obtain ⟨catalog, payment, ok⟩ := env
  cases items? with
  | none =>
    exact ⟨fun ⟨o, ho, hoid⟩ => absurd hoid (hfresh o ho), fun _ => rfl⟩
  | some items =>
    cases items with
    | nil =>
      exact ⟨fun ⟨o, ho, hoid⟩ => absurd hoid (hfresh o ho), fun _ => rfl⟩
    | cons a l =>
      cases hres : resolveItems catalog (a :: l) with
      | none =>
        have hst : (createOrder st (some (a :: l)) shipping ⟨catalog, payment, ok⟩ oid).store =
            st := by
          simp [createOrder, hres]
        rw [hst]
        exact ⟨fun ⟨o, ho, hoid⟩ => absurd hoid (hfresh o ho), fun _ => rfl⟩
      | some ris =>
        rw [createOrder_eq_finish st (a :: l) shipping ⟨catalog, payment, ok⟩ oid ris
          (by simp) hres]
        cases payment with
        | success =>
          cases ok with
          | true =>
            rw [finishCheckout_success_ok]
            refine ⟨fun _ => rfl, fun hall => ?_⟩
            exfalso
            refine hall { pendingOrder oid ris shipping with status := OrderStatus.processing }
              ?_ rfl
            exact List.mem_map.mpr ⟨pendingOrder oid ris shipping,
              List.mem_append_right _ (List.mem_singleton_self _), by simp [pendingOrder]⟩
          | false =>
            rw [finishCheckout_success_updateFail]
            exact ⟨fun ⟨o, ho, hoid⟩ => absurd hoid (hfresh o ho), fun _ => rfl⟩
        | failed =>
          rw [finishCheckout_noSuccess st (a :: l) shipping catalog PaymentResult.failed ok oid
            ris (by decide)]
          refine ⟨fun _ => rfl, fun hall => ?_⟩
          exact absurd rfl (hall (pendingOrder oid ris shipping)
            (List.mem_append_right _ (List.mem_singleton_self _)))
        | transportError =>
          rw [finishCheckout_noSuccess st (a :: l) shipping catalog
            PaymentResult.transportError ok oid ris (by decide)]
          refine ⟨fun _ => rfl, fun hall => ?_⟩
          exact absurd rfl (hall (pendingOrder oid ris shipping)
            (List.mem_append_right _ (List.mem_singleton_self _)))

/-- Witness for C8 at the P6 scenario with a declined payment: the order is
persisted and the cart is cleared nonetheless. -/
theorem cart_cleared_iff_order_persisted_witness :
    (∀ o ∈ demoStore.orders, o.id ≠ 1) ∧
    (((∃ o ∈ (createOrder demoStore (some demoItems) none demoEnvDeclined 1).store.orders,
        o.id = 1) →
      (createOrder demoStore (some demoItems) none demoEnvDeclined 1).store.cart =
        clearCart demoStore.cart) ∧
     ((∀ o ∈ (createOrder demoStore (some demoItems) none demoEnvDeclined 1).store.orders,
        o.id ≠ 1) →
      (createOrder demoStore (some demoItems) none demoEnvDeclined 1).store = demoStore)) :=
  ⟨by simp [demoStore],
   cart_cleared_iff_order_persisted demoStore (some demoItems) none demoEnvDeclined 1
     (by simp [demoStore])⟩

/-- Any row of the committed store after a checkout is either a
pre-existing row (all of which the run leaves untouched when the new order
id is fresh), the newly inserted `pending` order, or that order advanced to
`processing` — and the advanced form occurs only when the payment outcome
was a success. -/
theorem run_orders_characterization (st : Store) (items? : Option (List Item))
    (shipping : Option String) (env : CheckoutEnv) (oid : Nat) (o2 : Order)
    (hfresh : ∀ o ∈ st.orders, o.id ≠ oid)
    (ho2 : o2 ∈ (createOrder st items? shipping env oid).store.orders) :
    o2 ∈ st.orders ∨
    (∃ ris, o2 = pendingOrder oid ris shipping) ∨
    (∃ ris, o2 = { pendingOrder oid ris shipping with status := OrderStatus.processing } ∧
      env.payment = PaymentResult.success) := by
  obtain ⟨catalog, payment, ok⟩ := env
  cases items? with
  | none => exact Or.inl ho2
  | some items =>
    cases items with
    | nil => exact Or.inl ho2
    | cons a l =>
      cases hres : resolveItems catalog (a :: l) with
      | none =>
        have hst : (createOrder st (some (a :: l)) shipping ⟨catalog, payment, ok⟩ oid).store =
            st := by
          simp [createOrder, hres]
        rw [hst] at ho2
        exact Or.inl ho2
      | some ris =>
        rw [createOrder_eq_finish st (a :: l) shipping ⟨catalog, payment, ok⟩ oid ris
          (by simp) hres] at ho2
        cases payment with
        | success =>
          cases ok with
          | true =>
            rw [finishCheckout_success_ok] at ho2
            simp only [List.map_append, List.map_singleton,
              map_advance_of_fresh st.orders oid hfresh] at ho2
            rcases List.mem_append.mp ho2 with h | h
            · exact Or.inl h
            · rw [List.mem_singleton] at h
              refine Or.inr (Or.inr ⟨ris, ?_, rfl⟩)
              rw [h]
              simp [pendingOrder]
          | false =>
            rw [finishCheckout_success_updateFail] at ho2
            exact Or.inl ho2
        | failed =>
          rw [finishCheckout_noSuccess st (a :: l) shipping catalog PaymentResult.failed ok oid
            ris (by decide)] at ho2
          rcases List.mem_append.mp ho2 with h | h
          · exact Or.inl h
          · rw [List.mem_singleton] at h
            exact Or.inr (Or.inl ⟨ris, h⟩)
        | transportError =>
          rw [finishCheckout_noSuccess st (a :: l) shipping catalog
            PaymentResult.transportError ok oid ris (by decide)] at ho2
          rcases List.mem_append.mp ho2 with h | h
          · exact Or.inl h
          · rw [List.mem_singleton] at h
            exact Or.inr (Or.inl ⟨ris, h⟩)

/-- C9 (counterexample): the status endpoint reverts an order from
`processing` back to `pending`, and advances another to `processing`
although no payment was ever observed for it — the claimed invariant over
all order-service operations fails. -/
theorem status_endpoint_allows_revert :
    revertRun.status = 200 ∧
    revertRun.store.orders = [⟨5, 1, 10, "A", OrderStatus.pending⟩] ∧
    advanceRun.status = 200 ∧
    advanceRun.store.orders = [⟨6, 1, 10, "A", OrderStatus.processing⟩] :=
  ⟨rfl, rfl, rfl, rfl⟩

/-- C9 (amended): the checkout algorithm itself never installs status
`processing` without a succeeded payment outcome — but the status-update
endpoint applies any requested valid status to any existing order
unconditionally, including `processing → pending` and advancing to
`processing` with no payment involved. -/
theorem status_transitions_characterized (st : Store) (items? : Option (List Item))
    (shipping : Option String) (env : CheckoutEnv) (oid : Nat)
    (hfresh : ∀ o ∈ st.orders, o.id ≠ oid)
    (st2 : Store) (oid2 : Nat) (str : String) (s : OrderStatus) (o : Order)
    (hs : statusOfString str = some s)
    (hfind : st2.orders.find? (fun x => x.id == oid2) = some o) :
    ((∃ o2 ∈ (createOrder st items? shipping env oid).store.orders,
        o2.id = oid ∧ o2.status = OrderStatus.processing) →
      env.payment = PaymentResult.success) ∧
    (updateOrderStatus st2 oid2 str).status = 200 ∧
    (updateOrderStatus st2 oid2 str).body = some { o with status := s } := by
  refine ⟨?_, ?_, ?_⟩
  · rintro ⟨o2, ho2, hid, hstat⟩
    rcases run_orders_characterization st items? shipping env oid o2 hfresh ho2 with
      h | ⟨ris, h⟩ | ⟨ris, h, hp⟩
    · exact absurd hid (hfresh o2 h)
    · rw [h] at hstat
      exact absurd hstat (by simp [pendingOrder])
    · exact hp
  · simp [updateOrderStatus, hs, hfind]
  · simp [updateOrderStatus, hs, hfind]

/-- Witness for the amended C9: the successful P6 run for the checkout
half, and a revert of a `processing` order for the endpoint half. -/
theorem status_transitions_characterized_witness :
    ((∀ o ∈ demoStore.orders, o.id ≠ 1) ∧
      statusOfString "pending" = some OrderStatus.pending ∧
      (⟨[⟨5, 1, 10, "A", OrderStatus.processing⟩], [], []⟩ : Store).orders.find?
        (fun x => x.id == 5) = some ⟨5, 1, 10, "A", OrderStatus.processing⟩) ∧
    (((∃ o2 ∈ (createOrder demoStore (some demoItems) none demoEnvOk 1).store.orders,
        o2.id = 1 ∧ o2.status = OrderStatus.processing) →
      demoEnvOk.payment = PaymentResult.success) ∧
     (updateOrderStatus ⟨[⟨5, 1, 10, "A", OrderStatus.processing⟩], [], []⟩ 5 "pending").status =
       200 ∧
     (updateOrderStatus ⟨[⟨5, 1, 10, "A", OrderStatus.processing⟩], [], []⟩ 5 "pending").body =
       some ⟨5, 1, 10, "A", OrderStatus.pending⟩) :=
  ⟨⟨by simp [demoStore], rfl, rfl⟩,
   status_transitions_characterized demoStore (some demoItems) none demoEnvOk 1
     (by simp [demoStore]) ⟨[⟨5, 1, 10, "A", OrderStatus.processing⟩], [], []⟩ 5 "pending"
     OrderStatus.pending ⟨5, 1, 10, "A", OrderStatus.processing⟩ rfl rfl⟩

/-- C10: the checkout never reads the stored cart — every output except the
final cart itself (response status and body, event trace, committed orders
and order items) is identical for any two stored carts — while the
cart-clearing step removes every cart row of the demo owner
unconditionally whenever the transaction commits, whether or not those
rows match the requested items. -/
theorem checkout_ignores_stored_cart (st : Store) (cart2 : List CartLine)
    (items? : Option (List Item)) (shipping : Option String) (env : CheckoutEnv) (oid : Nat) :
    ((createOrder ⟨st.orders, st.order_items, cart2⟩ items? shipping env oid).status =
      (createOrder st items? shipping env oid).status) ∧
    ((createOrder ⟨st.orders, st.order_items, cart2⟩ items? shipping env oid).body =
      (createOrder st items? shipping env oid).body) ∧
    ((createOrder ⟨st.orders, st.order_items, cart2⟩ items? shipping env oid).trace =
      (createOrder st items? shipping env oid).trace) ∧
    ((createOrder ⟨st.orders, st.order_items, cart2⟩ items? shipping env oid).store.orders =
      (createOrder st items? shipping env oid).store.orders) ∧
    ((createOrder ⟨st.orders, st.order_items, cart2⟩ items? shipping env oid).store.order_items =
      (createOrder st items? shipping env oid).store.order_items) ∧
    ((createOrder ⟨st.orders, st.order_items, cart2⟩ items? shipping env oid).store ≠
        ⟨st.orders, st.order_items, cart2⟩ →
      (createOrder ⟨st.orders, st.order_items, cart2⟩ items? shipping env oid).store.cart =
        clearCart cart2) := by
  obtain ⟨catalog, payment, ok⟩ := env
  cases items? with
  | none => exact ⟨rfl, rfl, rfl, rfl, rfl, fun h => absurd rfl h⟩
  | some items =>
    cases items with
    | nil => exact ⟨rfl, rfl, rfl, rfl, rfl, fun h => absurd rfl h⟩
    | cons a l =>
      cases hres : resolveItems catalog (a :: l) with
      | none =>
        have h1 : createOrder ⟨st.orders, st.order_items, cart2⟩ (some (a :: l)) shipping
            ⟨catalog, payment, ok⟩ oid =
            ⟨500, none, ⟨st.orders, st.order_items, cart2⟩,
             Event.beginTx :: (lookupTrace catalog (a :: l) ++ [Event.rollbackTx])⟩ := by
          simp [createOrder, hres]
        have h2 : createOrder st (some (a :: l)) shipping ⟨catalog, payment, ok⟩ oid =
            ⟨500, none, st,
             Event.beginTx :: (lookupTrace catalog (a :: l) ++ [Event.rollbackTx])⟩ := by
          simp [createOrder, hres]
        rw [h1, h2]
        exact ⟨rfl, rfl, rfl, rfl, rfl, fun h => absurd rfl h⟩
      | some ris =>
        rw [createOrder_eq_finish ⟨st.orders, st.order_items, cart2⟩ (a :: l) shipping
          ⟨catalog, payment, ok⟩ oid ris (by simp) hres,
          createOrder_eq_finish st (a :: l) shipping ⟨catalog, payment, ok⟩ oid ris
          (by simp) hres]
        cases payment with
        | success =>
          cases ok with
          | true =>
            rw [finishCheckout_success_ok, finishCheckout_success_ok]
            exact ⟨rfl, rfl, rfl, rfl, rfl, fun _ => rfl⟩
          | false =>
            rw [finishCheckout_success_updateFail, finishCheckout_success_updateFail]
            exact ⟨rfl, rfl, rfl, rfl, rfl, fun h => absurd rfl h⟩
        | failed =>
          rw [finishCheckout_noSuccess ⟨st.orders, st.order_items, cart2⟩ (a :: l) shipping
            catalog PaymentResult.failed ok oid ris (by decide),
            finishCheckout_noSuccess st (a :: l) shipping catalog PaymentResult.failed ok oid
            ris (by decide)]
          exact ⟨rfl, rfl, rfl, rfl, rfl, fun _ => rfl⟩
        | transportError =>
          rw [finishCheckout_noSuccess ⟨st.orders, st.order_items, cart2⟩ (a :: l) shipping
            catalog PaymentResult.transportError ok oid ris (by decide),
            finishCheckout_noSuccess st (a :: l) shipping catalog
            PaymentResult.transportError ok oid ris (by decide)]
          exact ⟨rfl, rfl, rfl, rfl, rfl, fun _ => rfl⟩

/-- Witness for C10: a stored cart holding only product 9 while product 7
is ordered — the committed order line is for the absent product 7 and the
unrelated product-9 cart row is removed anyway. -/
theorem checkout_ignores_stored_cart_witness :
    (((createOrder ⟨[], [], [⟨1, 9, 5⟩]⟩ (some demoItems) none demoEnvDeclined 1).status =
      (createOrder ⟨[], [], []⟩ (some demoItems) none demoEnvDeclined 1).status) ∧
     ((createOrder ⟨[], [], [⟨1, 9, 5⟩]⟩ (some demoItems) none demoEnvDeclined 1).body =
      (createOrder ⟨[], [], []⟩ (some demoItems) none demoEnvDeclined 1).body) ∧
     ((createOrder ⟨[], [], [⟨1, 9, 5⟩]⟩ (some demoItems) none demoEnvDeclined 1).trace =
      (createOrder ⟨[], [], []⟩ (some demoItems) none demoEnvDeclined 1).trace) ∧
     ((createOrder ⟨[], [], [⟨1, 9, 5⟩]⟩ (some demoItems) none demoEnvDeclined 1).store.orders =
      (createOrder ⟨[], [], []⟩ (some demoItems) none demoEnvDeclined 1).store.orders) ∧
     ((createOrder ⟨[], [], [⟨1, 9, 5⟩]⟩ (some demoItems) none
        demoEnvDeclined 1).store.order_items =
      (createOrder ⟨[], [], []⟩ (some demoItems) none demoEnvDeclined 1).store.order_items) ∧
     ((createOrder ⟨[], [], [⟨1, 9, 5⟩]⟩ (some demoItems) none demoEnvDeclined 1).store ≠
        ⟨[], [], [⟨1, 9, 5⟩]⟩ →
      (createOrder ⟨[], [], [⟨1, 9, 5⟩]⟩ (some demoItems) none demoEnvDeclined 1).store.cart =
        clearCart [⟨1, 9, 5⟩])) ∧
    (createOrder ⟨[], [], [⟨1, 9, 5⟩]⟩ (some demoItems) none demoEnvDeclined 1).store.cart =
      [] ∧
    (createOrder ⟨[], [], [⟨1, 9, 5⟩]⟩ (some demoItems) none
      demoEnvDeclined 1).store.order_items = [⟨1, 7, 2, 2999 / 100⟩] :=
  ⟨checkout_ignores_stored_cart ⟨[], [], []⟩ [⟨1, 9, 5⟩] (some demoItems) none
     demoEnvDeclined 1, rfl, rfl⟩

end OrderService
